import Mathlib

/-!
Shallow embedding of the OIDC login/registration continuation engine:
the `ContinueWith` value types of package `flow`, the provider registry
(`ConfigurationCollection.Provider`) and the login strategy
(`Strategy.Login`, `Strategy.processLogin`) of package `oidc`.

Collaborators that are only called here (persisters, hooks, decoders,
the continuity manager, the registration counterpart) are modelled as an
explicit environment record whose outcomes are inputs; observable calls
to them are recorded in an effect trace so that theorems can speak about
which collaborator was invoked with which arguments.
-/

namespace Kratos

/-! ### URL query values (`net/url` `Values`)

`url.Values` is a map from key to list of values.  We model it as an
association list; `Set` replaces every binding of the key by a single
value, `Get` returns the first value bound to the key or the empty
string. -/

abbrev Values := List (String × List String)

def valuesGetAll (vs : Values) (k : String) : List String :=
  ((vs.filter (fun kv => kv.1 == k)).map (fun kv => kv.2)).flatten

/-- `url.Values.Get`: first value for the key, `""` when absent. -/
def valuesGet (vs : Values) (k : String) : String :=
  match valuesGetAll vs k with
  | [] => ""
  | v :: _ => v

/-- `url.Values.Set`: the key is now bound to exactly the one value. -/
def valuesSet (vs : Values) (k v : String) : Values :=
  (vs.filter (fun kv => !(kv.1 == k))) ++ [(k, [v])]

/-- A URL: everything but the query string is opaque (`base`), the query
string is kept parsed (`url.Query()` / `RawQuery` round-trip). -/
structure URL where
  base : String
  query : Values
  deriving Repr, DecidableEq

/-! ### `ContinueWith` (package `flow`) -/

/-- `continueWithSetOrySessionToken`. -/
structure ContinueWithSetToken where
  action : String
  orySessionToken : String
  deriving Repr, DecidableEq

/-- `ContinueWithSetToken.AppendTo(url.Values) url.Values` returns `nil`:
it never touches a URL (its argument is a value map, and it returns the
nil map). -/
def ContinueWithSetToken.AppendTo (_ : ContinueWithSetToken) (_ : Values) :
    Option Values :=
  none

def NewContinueWithSetToken (t : String) : ContinueWithSetToken :=
  { action := "set_ory_session_token", orySessionToken := t }

structure ContinueWithVerificationUIFlow where
  id : String
  verifiableAddress : String
  deriving Repr, DecidableEq

/-- `continueWithVerificationUI`. -/
structure ContinueWithVerificationUI where
  action : String
  flow : ContinueWithVerificationUIFlow
  deriving Repr, DecidableEq

/-- `ContinueWithVerificationUI.AppendTo`: reads the source URL's query,
sets `flow` to the flow id, and returns a copy of the URL carrying the
new query (`urlx.CopyWithQuery`). -/
def ContinueWithVerificationUI.AppendTo (c : ContinueWithVerificationUI)
    (src : URL) : URL :=
  let values := src.query
  let values := valuesSet values "flow" c.flow.id
  { base := src.base, query := values }

/-- Heap-explicit form of `AppendTo`: Go URLs are passed by pointer, so we
index URLs by position in a store.  `src.Query()` parses into a fresh
value map and `urlx.CopyWithQuery` allocates a fresh `url.URL`; the store
cell of the source pointer is never written. -/
def ContinueWithVerificationUI.AppendToSt (c : ContinueWithVerificationUI)
    (p : Nat) (σ : List URL) : Option (Nat × List URL) :=
  match σ[p]? with
  | none => none
  | some src => some (σ.length, σ ++ [c.AppendTo src])

/-! ### Provider configuration (package `oidc`) -/

structure Configuration where
  id : String
  provider : String
  label : String := ""
  clientId : String := ""
  clientSecret : String := ""
  issuerURL : String := ""
  authURL : String := ""
  tokenURL : String := ""
  tenant : String := ""
  subjectSource : String := ""
  teamId : String := ""
  privateKeyId : String := ""
  privateKey : String := ""
  scope : List String := []
  mapper : String := ""
  requestedClaims : String := ""
  deriving Repr, DecidableEq

structure ConfigurationCollection where
  baseRedirectURI : String
  providers : List Configuration
  deriving Repr, DecidableEq

/-- The keys of the constructor map in `ConfigurationCollection.Provider`,
in source order. -/
def supportedProviderKinds : List String :=
  ["generic", "google", "github", "github-app", "gitlab", "microsoft",
   "discord", "slack", "facebook", "auth0", "vk", "yandex", "apple",
   "spotify", "netid", "dingtalk", "linkedin", "patreon"]

/-! ### Errors

The error taxonomy of the orchestrator.  Collaborator failures surface as
`external`; `annotated` is the single error-annotation step
(`handleError`) recording provider id and flow context. -/

inductive Err where
  | strategyNotResponsible
  | completedByStrategy
  | badRequest (reason : String)
  | internalServer (reason : String)
  | providerUnknown (id : String)
  | providerKindUnsupported (kind : String) (supported : List String)
  | idTokenMissing
  | providerNoAPISupport
  | userNotFound
  | unsupportedFlowType (t : String)
  | external (code : Nat)
  | annotated (providerID : String) (flowID : String) (e : Err)
  deriving Repr, DecidableEq

/-- Internal-server error class (`herodot.ErrInternalServerError`),
looking through annotation. -/
def Err.isInternalServerClass : Err → Bool
  | .internalServer _ => true
  | .annotated _ _ e => e.isInternalServerClass
  | _ => false

/-- Not-found error class (`herodot.ErrNotFound`), looking through
annotation. -/
def Err.isNotFoundClass : Err → Bool
  | .providerUnknown _ => true
  | .userNotFound => true
  | .annotated _ _ e => e.isNotFoundClass
  | _ => false

/-! ### Runtime provider -/

structure Claims where
  subject : String
  raw : String := ""
  deriving Repr, DecidableEq

/-- An OAuth2 client: building the authorization-code URL from the CSRF
state and the assembled options. -/
structure OAuth2Client where
  authCodeURL : String → List String → String

/-- A constructed runtime provider.  `isAPIFlow` models the
`provider.(APIFlowProvider)` type assertion; `claimsFromIDToken` is that
capability's outcome. -/
structure RuntimeProvider where
  config : Configuration
  isAPIFlow : Bool
  claimsFromIDToken : String → Except Err Claims
  oauth2 : Except Err OAuth2Client
  authCodeURLOptions : List String

/-- `ConfigurationCollection.Provider`: scan the configured providers for
the first entry whose `ID` matches; on a hit, look the entry's kind up in
the constructor map (membership in `supportedProviderKinds`; `mk`
abstracts the per-kind constructors, which live in other files) and
either construct or fail enumerating every supported kind; on a miss fail
with the not-found error. -/
def ConfigurationCollection.Provider (c : ConfigurationCollection)
    (mk : String → Configuration → RuntimeProvider) (id : String) :
    Except Err RuntimeProvider :=
  match c.providers.find? (fun p => p.id == id) with
  | some p =>
      if supportedProviderKinds.contains p.provider then
        .ok (mk p.provider p)
      else
        .error (.providerKindUnsupported p.provider supportedProviderKinds)
  | none => .error (.providerUnknown id)

/-! ### Flows, sessions, identities -/

inductive FlowType where
  | browser
  | api
  | other (s : String)
  deriving Repr, DecidableEq

structure LoginFlow where
  id : String
  type : FlowType
  requestedAAL : Nat
  returnTo : String
  requestURL : URL
  active : String
  deriving Repr, DecidableEq

structure RegistrationFlow where
  id : String
  returnTo : String
  requestURL : URL
  deriving Repr, DecidableEq

inductive FlowOption where
  | withFlowReturnTo (rt : String)
  deriving Repr, DecidableEq

structure Identity where
  id : String
  deriving Repr, DecidableEq

structure AuthMethod where
  method : String
  aal : Nat
  deriving Repr, DecidableEq

structure Session where
  active : Bool
  amr : List AuthMethod
  deriving Repr, DecidableEq

/-- Modelled from the spec: the session collaborator's
`newInactiveSession()` — a fresh session that is not yet active. -/
def Session.newInactive : Session :=
  { active := false, amr := [] }

/-- Modelled from the spec: `session.completedLoginFor(strategyID, aal)` —
records that this strategy completed authentication at the given AAL. -/
def Session.CompletedLoginFor (s : Session) (method : String) (aal : Nat) :
    Session :=
  { s with amr := s.amr ++ [{ method := method, aal := aal }] }

/-- The strategy's identifier; the spec fixes the strategy to OIDC. -/
def oidcStrategyID : String := "oidc"

/-- Modelled from the spec: `identity.OIDCUniqueID(provider, subject)` —
the credentials-identifier key, `providerID` + `claims.subject`. -/
def OIDCUniqueID (provider subject : String) : String :=
  provider ++ ":" ++ subject

structure CredentialsOIDCProvider where
  subject : String
  provider : String
  deriving Repr, DecidableEq

/-- Decoded `identity.CredentialsOIDC` configuration: the linked provider
entries. -/
structure CredentialsOIDC where
  providers : List CredentialsOIDCProvider
  deriving Repr, DecidableEq

/-- Continuity payload (`authCodeContainer`): CSRF state, flow id,
pending registration traits. -/
structure AuthCodeContainer where
  state : String
  flowID : String
  traits : String
  deriving Repr, DecidableEq

abbrev Token := String

structure Request where
  url : URL
  isJSON : Bool
  deriving Repr, DecidableEq

/-! ### Collaborator environment and effect trace -/

/-- `FindByCredentialsIdentifier` outcome: a hit returns the identity and
the raw credentials config blob; `sqlcon.ErrNoRows` is the distinguished
miss. -/
inductive FindResult where
  | found (i : Identity) (credsConfig : String)
  | noRows
  | failure (e : Err)
  deriving Repr

/-- One observable collaborator call. -/
inductive Effect where
  | resolvedProvider (pid : String)
  | pausedContinuity (payload : AuthCodeContainer) (lifespanMinutes : Nat)
  | updatedLoginFlow (f : LoginFlow)
  | wroteLocationChange (url : String)
  | redirected (url : String)
  | calledClaimsFromIDToken (idToken : String)
  | calledNewRegistrationFlow (t : FlowType) (opts : List FlowOption)
      (requestQuery : Values)
  | calledProcessRegistration (rf : RegistrationFlow) (tok : Token)
      (cl : Claims) (pid : String) (cont : AuthCodeContainer)
  | createdSession (s : Session)
  | calledPostLoginHook (i : Identity) (s : Session)
  deriving Repr, DecidableEq

/-- Wire payload `updateLoginFlowWithOidcMethod`. -/
structure UpdateLoginFlowWithOidcMethod where
  provider : String
  csrfToken : String := ""
  method : String := ""
  traits : String := ""
  upstreamParameters : String := ""
  idToken : String := ""
  deriving Repr, DecidableEq

/-- Outcomes of every external collaborator the strategy consults; the
strategy's own logic is the code, these are its inputs. -/
structure Env where
  findByCredentialsIdentifier : String → String → FindResult
  decodeCredentialsOIDC : String → Except String CredentialsOIDC
  newRegistrationFlow : FlowType → List FlowOption →
      Except Err RegistrationFlow
  processRegistration : RegistrationFlow → Token → Claims → String →
      AuthCodeContainer → Except Err Identity
  postLoginHook : LoginFlow → Identity → Session → Except Err Unit
  decodeLinkForm : Except String UpdateLoginFlowWithOidcMethod
  methodEnabledFromRequest : Except Err Unit
  decodeAPI : Except Err UpdateLoginFlowWithOidcMethod
  methodEnabledAndAllowed : Except Err Unit
  conf : ConfigurationCollection
  mkProvider : String → Configuration → RuntimeProvider
  validateFlow : Except Err Unit
  alreadyAuthenticated : Bool
  generateState : String → String
  pause : Except Err Unit
  updateLoginFlow : Except Err Unit
  decodeUpstream : String → Except Err (List (String × String))
  upstreamOptions : List (String × String) → List String

/-! ### The login strategy -/

/-- Modelled from the spec: `handleError` is the single error-annotation
step every failure funnels through, recording the provider id and the
originating flow before the error leaves the orchestrator. -/
def Strategy.handleError (a : LoginFlow) (providerID : String) (e : Err) :
    Err :=
  .annotated providerID a.id e

/-- Modelled from the spec: `x.TakeOverReturnToParameter` transfers the
original request URL's continuation semantics — its `return_to` query
parameter — onto the new flow's request URL (a no-op when the original
carries none). -/
def TakeOverReturnToParameter (fromURL toURL : URL) : Except Err URL :=
  let rt := valuesGet fromURL.query "return_to"
  if rt = "" then .ok toURL
  else .ok { toURL with query := valuesSet toURL.query "return_to" rt }

/-- Modelled from the spec: `login.CheckAAL` — this strategy can only
satisfy AAL1, so a flow requesting a higher assurance level is not this
strategy's to handle: it returns immediately, with the not-responsible
signal and no state change. -/
def CheckAAL (f : LoginFlow) (expected : Nat) : Option Err :=
  if expected < f.requestedAAL then some .strategyNotResponsible else none

/-- Result of `processLogin`: the Go pair `(*registration.Flow, error)`
plus the final request state and the collaborator-call trace. -/
structure ProcessLoginResult where
  regFlow : Option RegistrationFlow
  error : Option Err
  request : Request
  effects : List Effect
  deriving Repr, DecidableEq

/-- `Strategy.processLogin`: look the identity up by the OIDC
credentials identifier; on `ErrNoRows` re-initialize a registration flow
(preserving `ReturnTo`, forwarding the `return_to` query parameter and
taking over the request URL's `return_to`) and delegate to
`processRegistration`; on a hit decode the stored OIDC credentials,
create an inactive session marked AAL1-complete and fire the post-login
hook for the matching linked provider entry, or fail with the
credentials-mismatch internal error when no entry matches. -/
def Strategy.processLogin (env : Env) (r : Request) (a : LoginFlow)
    (token : Token) (claims : Claims) (provider : RuntimeProvider)
    (container : AuthCodeContainer) : ProcessLoginResult :=
  match env.findByCredentialsIdentifier oidcStrategyID
      (OIDCUniqueID provider.config.id claims.subject) with
  | .noRows =>
      let opts := if 0 < a.returnTo.length
        then [FlowOption.withFlowReturnTo a.returnTo] else []
      let r := { r with url :=
        { r.url with query := valuesSet r.url.query "return_to" a.returnTo } }
      let eff0 := Effect.calledNewRegistrationFlow .browser opts r.url.query
      match env.newRegistrationFlow .browser opts with
      | .error e =>
          { regFlow := none,
            error := some (Strategy.handleError a provider.config.id e),
            request := r, effects := [eff0] }
      | .ok aa =>
          match TakeOverReturnToParameter a.requestURL aa.requestURL with
          | .error e =>
              { regFlow := none,
                error := some (Strategy.handleError a provider.config.id e),
                request := r, effects := [eff0] }
          | .ok u =>
              let aa := { aa with requestURL := u }
              let eff1 := Effect.calledProcessRegistration aa token claims
                provider.config.id container
              match env.processRegistration aa token claims
                  provider.config.id container with
              | .error e =>
                  { regFlow := some aa, error := some e, request := r,
                    effects := [eff0, eff1] }
              | .ok _ =>
                  { regFlow := none, error := none, request := r,
                    effects := [eff0, eff1] }
  | .failure e =>
      { regFlow := none,
        error := some (Strategy.handleError a provider.config.id e),
        request := r, effects := [] }
  | .found i c =>
      match env.decodeCredentialsOIDC c with
      | .error _ =>
          { regFlow := none,
            error := some (Strategy.handleError a provider.config.id
              (.internalServer
                "The password credentials could not be decoded properly")),
            request := r, effects := [] }
      | .ok o =>
          let sess := (Session.newInactive).CompletedLoginFor oidcStrategyID 1
          match o.providers.find? (fun cc =>
              cc.subject == claims.subject &&
              cc.provider == provider.config.id) with
          | some _ =>
              match env.postLoginHook a i sess with
              | .error e =>
                  { regFlow := none,
                    error := some (Strategy.handleError a provider.config.id e),
                    request := r,
                    effects := [.createdSession sess,
                                .calledPostLoginHook i sess] }
              | .ok _ =>
                  { regFlow := none, error := none, request := r,
                    effects := [.createdSession sess,
                                .calledPostLoginHook i sess] }
          | none =>
              { regFlow := none,
                error := some (Strategy.handleError a provider.config.id
                  (.internalServer
                    "Unable to find matching OpenID Connect Credentials.")),
                request := r, effects := [.createdSession sess] }

/-- Result of `Login`: the Go pair `(*identity.Identity, error)` plus the
(possibly mutated) flow and the collaborator-call trace. -/
structure LoginResult where
  identity : Option Identity
  error : Option Err
  flow : LoginFlow
  effects : List Effect
  deriving Repr, DecidableEq

/-- The tail of `Strategy.Login` after the payload has been decoded and
`pid`/`idToken` extracted: the empty-provider routing signal, the
method-enabled gate, provider resolution, OAuth2 client, flow
validation, the already-authenticated short-circuit, and the
browser/API/other three-way branch. -/
def Strategy.loginDecoded (env : Env) (r : Request) (f : LoginFlow)
    (p : UpdateLoginFlowWithOidcMethod) (pid idToken : String) :
    LoginResult :=
  if pid = "" then
    { identity := none, error := some .strategyNotResponsible, flow := f,
      effects := [] }
  else
    match env.methodEnabledAndAllowed with
    | .error e =>
        { identity := none, error := some (Strategy.handleError f pid e),
          flow := f, effects := [] }
    | .ok _ =>
    match env.conf.Provider env.mkProvider pid with
    | .error e =>
        { identity := none, error := some (Strategy.handleError f pid e),
          flow := f, effects := [.resolvedProvider pid] }
    | .ok provider =>
    match provider.oauth2 with
    | .error e =>
        { identity := none, error := some (Strategy.handleError f pid e),
          flow := f, effects := [.resolvedProvider pid] }
    | .ok c =>
    match env.validateFlow with
    | .error e =>
        { identity := none, error := some (Strategy.handleError f pid e),
          flow := f, effects := [.resolvedProvider pid] }
    | .ok _ =>
    if env.alreadyAuthenticated then
      { identity := none, error := none, flow := f,
        effects := [.resolvedProvider pid] }
    else
    let state := env.generateState f.id
    match f.type with
    | .browser =>
        let payload : AuthCodeContainer :=
          { state := state, flowID := f.id, traits := p.traits }
        let effP := Effect.pausedContinuity payload 30
        match env.pause with
        | .error e =>
            { identity := none, error := some (Strategy.handleError f pid e),
              flow := f, effects := [.resolvedProvider pid, effP] }
        | .ok _ =>
        let f' := { f with active := oidcStrategyID }
        match env.updateLoginFlow with
        | .error _ =>
            { identity := none,
              error := some (Strategy.handleError f pid
                (.internalServer "Could not update flow")),
              flow := f',
              effects := [.resolvedProvider pid, effP, .updatedLoginFlow f'] }
        | .ok _ =>
        match env.decodeUpstream p.upstreamParameters with
        | .error e =>
            { identity := none, error := some e, flow := f',
              effects := [.resolvedProvider pid, effP, .updatedLoginFlow f'] }
        | .ok up =>
        let codeURL := c.authCodeURL state
          (provider.authCodeURLOptions ++ env.upstreamOptions up)
        if r.isJSON then
          { identity := none, error := some .completedByStrategy, flow := f',
            effects := [.resolvedProvider pid, effP, .updatedLoginFlow f',
                        .wroteLocationChange codeURL] }
        else
          { identity := none, error := some .completedByStrategy, flow := f',
            effects := [.resolvedProvider pid, effP, .updatedLoginFlow f',
                        .redirected codeURL] }
    | .api =>
        if provider.isAPIFlow then
          if 0 < idToken.length then
            match provider.claimsFromIDToken idToken with
            | .error e =>
                { identity := none, error := some e, flow := f,
                  effects := [.resolvedProvider pid,
                              .calledClaimsFromIDToken idToken] }
            | .ok claims =>
                match env.findByCredentialsIdentifier oidcStrategyID
                    (OIDCUniqueID provider.config.id claims.subject) with
                | .noRows =>
                    { identity := none,
                      error := some (Strategy.handleError f p.provider
                        .userNotFound),
                      flow := f,
                      effects := [.resolvedProvider pid,
                                  .calledClaimsFromIDToken idToken] }
                | .failure e =>
                    { identity := none, error := some e, flow := f,
                      effects := [.resolvedProvider pid,
                                  .calledClaimsFromIDToken idToken] }
                | .found i _ =>
                    { identity := some i, error := none, flow := f,
                      effects := [.resolvedProvider pid,
                                  .calledClaimsFromIDToken idToken] }
          else
            { identity := none,
              error := some (Strategy.handleError f p.provider .idTokenMissing),
              flow := f, effects := [.resolvedProvider pid] }
        else
          { identity := none,
            error := some (Strategy.handleError f p.provider
              .providerNoAPISupport),
            flow := f, effects := [.resolvedProvider pid] }
    | .other t =>
        { identity := none, error := some (.unsupportedFlowType t), flow := f,
          effects := [.resolvedProvider pid] }

/-- `Strategy.Login`: the AAL gate, the type-dependent payload decoding,
then `loginDecoded`. -/
def Strategy.Login (env : Env) (r : Request) (f : LoginFlow) : LoginResult :=
  match CheckAAL f 1 with
  | some e =>
      { identity := none, error := some e, flow := f, effects := [] }
  | none =>
  if f.type = .browser then
    match env.decodeLinkForm with
    | .error msg =>
        { identity := none,
          error := some (Strategy.handleError f ""
            (.badRequest ("Unable to parse HTTP form request: " ++ msg))),
          flow := f, effects := [] }
    | .ok p => Strategy.loginDecoded env r f p p.provider ""
  else
    match env.methodEnabledFromRequest with
    | .error e =>
        { identity := none, error := some e, flow := f, effects := [] }
    | .ok _ =>
    match env.decodeAPI with
    | .error e =>
        { identity := none, error := some (Strategy.handleError f "" e),
          flow := f, effects := [] }
    | .ok p => Strategy.loginDecoded env r f p p.provider p.idToken

/-! ### Helper lemmas on query values -/

theorem filter_valuesSet_ne (vs : Values) (k v : String) :
    (valuesSet vs k v).filter (fun kv => !(kv.1 == k)) =
      vs.filter (fun kv => !(kv.1 == k)) := by
  simp [valuesSet, List.filter_append, List.filter_filter]

theorem valuesSet_idem (vs : Values) (k v : String) :
    valuesSet (valuesSet vs k v) k v = valuesSet vs k v := by
  unfold valuesSet
  simp [List.filter_append, List.filter_filter]

theorem valuesGetAll_set (vs : Values) (k v : String) :
    valuesGetAll (valuesSet vs k v) k = [v] := by
  simp [valuesGetAll, valuesSet, List.filter_append, List.filter_filter]

theorem valuesGet_set (vs : Values) (k v : String) :
    valuesGet (valuesSet vs k v) k = v := by
  simp [valuesGet, valuesGetAll_set]

theorem find?_eq_of_mem_unique {l : List Configuration} {p : Configuration}
    (hu : l.Pairwise (fun a b => a.id ≠ b.id)) (hp : p ∈ l) {id : String}
    (hid : p.id = id) :
    l.find? (fun q => q.id == id) = some p := by
  induction l with
  | nil => cases hp
  | cons a l ih =>
      rcases List.mem_cons.mp hp with h | h
      · subst h
        simp [List.find?_cons, hid]
      · have hne : (a.id == id) = false := by
          simp only [beq_eq_false_iff_ne, ne_eq]
          rw [← hid]
          exact (List.pairwise_cons.mp hu).1 p h
        simp only [List.find?_cons, hne]
        exact ih (List.pairwise_cons.mp hu).2 h

/-! ### Concrete fixtures -/

def googleConf : Configuration := { id := "google", provider := "google" }

def mysteryConf : Configuration := { id := "bad", provider := "mystery" }

def conf2 : ConfigurationCollection :=
  { baseRedirectURI := "https://kratos", providers := [googleConf, mysteryConf] }

def oauth0 : OAuth2Client :=
  { authCodeURL := fun s _ => String.append "https://auth.example/" s }

def mkProvider0 (_kind : String) (conf : Configuration) : RuntimeProvider :=
  { config := conf,
    isAPIFlow := true,
    claimsFromIDToken := fun _ => .ok { subject := "sub-123" },
    oauth2 := .ok oauth0,
    authCodeURLOptions := [] }

def regURL0 : URL := { base := "https://kratos/reg", query := [] }

def reg0 : RegistrationFlow :=
  { id := "reg-1", returnTo := "", requestURL := regURL0 }

def ident0 : Identity := { id := "new-identity" }

def identLinked : Identity := { id := "linked-identity" }

def env0 : Env :=
  { findByCredentialsIdentifier := fun _ _ => .noRows,
    decodeCredentialsOIDC := fun _ => .ok { providers := [] },
    newRegistrationFlow := fun _ _ => .ok reg0,
    processRegistration := fun _ _ _ _ _ => .ok ident0,
    postLoginHook := fun _ _ _ => .ok (),
    decodeLinkForm := .ok { provider := "google" },
    methodEnabledFromRequest := .ok (),
    decodeAPI := .ok { provider := "google", idToken := "tok" },
    methodEnabledAndAllowed := .ok (),
    conf := { baseRedirectURI := "https://kratos", providers := [googleConf] },
    mkProvider := mkProvider0,
    validateFlow := .ok (),
    alreadyAuthenticated := false,
    generateState := fun fid => String.append "state-" fid,
    pause := .ok (),
    updateLoginFlow := .ok (),
    decodeUpstream := fun _ => .ok [],
    upstreamOptions := fun _ => [] }

def envFoundMatch : Env :=
  { env0 with
    findByCredentialsIdentifier := fun _ _ => .found identLinked "blob",
    decodeCredentialsOIDC := fun _ =>
      .ok { providers := [{ subject := "sub-123", provider := "google" }] } }

def envFoundNoMatch : Env :=
  { env0 with
    findByCredentialsIdentifier := fun _ _ => .found identLinked "blob",
    decodeCredentialsOIDC := fun _ => .ok { providers := [] } }

def loginURL0 : URL := { base := "https://kratos/login", query := [] }

def flowB : LoginFlow :=
  { id := "flow-1", type := .browser, requestedAAL := 1, returnTo := "",
    requestURL := loginURL0, active := "" }

def flowAPI : LoginFlow := { flowB with type := .api }

def req0 : Request :=
  { url := { base := "https://kratos/cb", query := [] }, isJSON := false }

def claims0 : Claims := { subject := "sub-123" }

def cont0 : AuthCodeContainer :=
  { state := "st-1", flowID := "flow-1", traits := "" }

def prov0 : RuntimeProvider := mkProvider0 "google" googleConf

def envEmptyPid : Env := { env0 with decodeLinkForm := .ok { provider := "" } }

def envNoTok : Env := { env0 with decodeAPI := .ok { provider := "google" } }

/-! ### Claim theorems -/

/-- C9: `ContinueWithVerificationUI.AppendTo` is idempotent — applying it
twice with the same flow id yields the same URL as applying it once, and
that URL's query binds `flow` to exactly the one value, the flow id —
while `ContinueWithSetToken.AppendTo` adds no query parameters at all
(it returns the nil value map and never touches a URL). -/
theorem C9_appendTo_idempotent_and_setToken_noop
    (c : ContinueWithVerificationUI) (u : URL)
    (t : ContinueWithSetToken) (v : Values) :
    c.AppendTo (c.AppendTo u) = c.AppendTo u ∧
    valuesGetAll (c.AppendTo (c.AppendTo u)).query "flow" = [c.flow.id] ∧
    t.AppendTo v = none := by
  refine ⟨?_, ?_, rfl⟩
  · simp [ContinueWithVerificationUI.AppendTo, valuesSet_idem]
  · simp [ContinueWithVerificationUI.AppendTo, valuesSet_idem,
      valuesGetAll_set]

/-- C10: the heap-explicit `AppendTo` never writes the caller's URL cell:
it allocates a fresh cell holding the augmented copy, and the source
pointer dereferences to the identical URL before and after the call. -/
theorem C10_appendTo_preserves_source (c : ContinueWithVerificationUI)
    (p : Nat) (σ : List URL) (src : URL) (h : σ[p]? = some src) :
    c.AppendToSt p σ = some (σ.length, σ ++ [c.AppendTo src]) ∧
    (σ ++ [c.AppendTo src])[p]? = some src ∧
    valuesGetAll (c.AppendTo src).query "flow" = [c.flow.id] := by
  have hp : p < σ.length := by
    by_contra h'
    rw [List.getElem?_eq_none (Nat.le_of_not_lt h')] at h
    cases h
  refine ⟨?_, ?_, ?_⟩
  · simp [ContinueWithVerificationUI.AppendToSt, h]
  · rw [List.getElem?_append, if_pos hp]
    exact h
  · simp [ContinueWithVerificationUI.AppendTo, valuesGetAll_set]

/-- C10 witness. -/
theorem C10_appendTo_preserves_source_witness :
    ContinueWithVerificationUI.AppendToSt
        { action := "verification_ui",
          flow := { id := "vf-1", verifiableAddress := "a@b.c" } }
        0 [{ base := "https://x", query := [] }] =
      some (1, [{ base := "https://x", query := [] },
        ContinueWithVerificationUI.AppendTo
          { action := "verification_ui",
            flow := { id := "vf-1", verifiableAddress := "a@b.c" } }
          { base := "https://x", query := [] }]) ∧
    ([{ base := "https://x", query := [] },
        ContinueWithVerificationUI.AppendTo
          { action := "verification_ui",
            flow := { id := "vf-1", verifiableAddress := "a@b.c" } }
          { base := "https://x", query := [] }] :
        List URL)[0]? = some { base := "https://x", query := [] } ∧
    valuesGetAll (ContinueWithVerificationUI.AppendTo
        { action := "verification_ui",
          flow := { id := "vf-1", verifiableAddress := "a@b.c" } }
        { base := "https://x", query := [] }).query "flow" = ["vf-1"] :=
  C10_appendTo_preserves_source
    { action := "verification_ui",
      flow := { id := "vf-1", verifiableAddress := "a@b.c" } }
    0 [{ base := "https://x", query := [] }]
    { base := "https://x", query := [] } rfl

/-- C6: provider resolution fails with the not-found `ProviderUnknown`
error exactly when no configuration carries the id; a configured id
whose kind has no registered constructor fails with an error enumerating
every supported kind; a configured id with a registered kind resolves to
a provider constructed from that configuration. -/
theorem C6_provider_resolution (c : ConfigurationCollection)
    (mk : String → Configuration → RuntimeProvider) (id : String)
    (huniq : c.providers.Pairwise (fun a b => a.id ≠ b.id)) :
    (c.Provider mk id = .error (.providerUnknown id) ↔
      ∀ p ∈ c.providers, p.id ≠ id) ∧
    (Err.providerUnknown id).isNotFoundClass = true ∧
    (∀ p ∈ c.providers, p.id = id →
      (supportedProviderKinds.contains p.provider = false →
        ∃ names, c.Provider mk id =
            .error (.providerKindUnsupported p.provider names) ∧
          ∀ k ∈ supportedProviderKinds, k ∈ names) ∧
      (supportedProviderKinds.contains p.provider = true →
        c.Provider mk id = .ok (mk p.provider p))) := by
  refine ⟨?_, rfl, ?_⟩
  · constructor
    · intro h p hp hid
      have hfind := find?_eq_of_mem_unique huniq hp hid
      simp only [ConfigurationCollection.Provider, hfind] at h
      by_cases hk : p.provider ∈ supportedProviderKinds
      · simp [hk] at h
      · simp [hk] at h
    · intro h
      have hnone : c.providers.find? (fun q => q.id == id) = none := by
        rw [List.find?_eq_none]
        intro p hp
        simpa using h p hp
      simp [ConfigurationCollection.Provider, hnone]
  · intro p hp hid
    have hfind := find?_eq_of_mem_unique huniq hp hid
    constructor
    · intro hk
      have hk' : p.provider ∉ supportedProviderKinds := by simpa using hk
      refine ⟨supportedProviderKinds, ?_, fun k hm => hm⟩
      simp [ConfigurationCollection.Provider, hfind, hk']
    · intro hk
      have hk' : p.provider ∈ supportedProviderKinds := by simpa using hk
      simp [ConfigurationCollection.Provider, hfind, hk']

/-- C6 witness. -/
theorem C6_provider_resolution_witness :
    (conf2.Provider mkProvider0 "bad" = .error (.providerUnknown "bad") ↔
      ∀ p ∈ conf2.providers, p.id ≠ "bad") ∧
    (Err.providerUnknown "bad").isNotFoundClass = true ∧
    (∀ p ∈ conf2.providers, p.id = "bad" →
      (supportedProviderKinds.contains p.provider = false →
        ∃ names, conf2.Provider mkProvider0 "bad" =
            .error (.providerKindUnsupported p.provider names) ∧
          ∀ k ∈ supportedProviderKinds, k ∈ names) ∧
      (supportedProviderKinds.contains p.provider = true →
        conf2.Provider mkProvider0 "bad" = .ok (mkProvider0 p.provider p))) :=
  C6_provider_resolution conf2 mkProvider0 "bad" (by decide)

/-- C1: when the login callback finds no identity linked to the asserted
(provider, subject) pair, `processLogin` re-initializes a registration
flow — preserving `ReturnTo` when non-empty, forwarding the `return_to`
query parameter on the request, and taking the `return_to` of the
original request URL over onto the new flow's request URL — delegates to
`processRegistration` with the same token, claims, provider and
continuity container, and returns no flow and no error when that
registration processing succeeds. -/
theorem C1_unknown_identity_pivots_to_registration (env : Env) (r : Request)
    (a : LoginFlow) (token : Token) (claims : Claims)
    (provider : RuntimeProvider) (container : AuthCodeContainer)
    (aa : RegistrationFlow) (u : URL) (ident : Identity)
    (hbrowser : a.type = .browser)
    (hfind : env.findByCredentialsIdentifier oidcStrategyID
      (OIDCUniqueID provider.config.id claims.subject) = .noRows)
    (hnew : env.newRegistrationFlow .browser
      (if 0 < a.returnTo.length then [FlowOption.withFlowReturnTo a.returnTo]
       else []) = .ok aa)
    (htake : TakeOverReturnToParameter a.requestURL aa.requestURL = .ok u)
    (hreg : env.processRegistration { aa with requestURL := u } token claims
      provider.config.id container = .ok ident) :
    (Strategy.processLogin env r a token claims provider container).regFlow
        = none ∧
    (Strategy.processLogin env r a token claims provider container).error
        = none ∧
    (Strategy.processLogin env r a token claims provider container).effects =
      [.calledNewRegistrationFlow .browser
         (if 0 < a.returnTo.length
          then [FlowOption.withFlowReturnTo a.returnTo] else [])
         (valuesSet r.url.query "return_to" a.returnTo),
       .calledProcessRegistration { aa with requestURL := u } token claims
         provider.config.id container] ∧
    valuesGet
      (Strategy.processLogin env r a token claims provider
        container).request.url.query "return_to" = a.returnTo := by
  simp only [Strategy.processLogin, hfind, hnew, htake, hreg]
  simp [valuesGet_set]

/-- C1 witness. -/
theorem C1_unknown_identity_pivots_to_registration_witness :
    (Strategy.processLogin env0 req0 flowB "tok" claims0 prov0 cont0).regFlow
        = none ∧
    (Strategy.processLogin env0 req0 flowB "tok" claims0 prov0 cont0).error
        = none ∧
    (Strategy.processLogin env0 req0 flowB "tok" claims0 prov0 cont0).effects =
      [.calledNewRegistrationFlow .browser
         (if 0 < flowB.returnTo.length
          then [FlowOption.withFlowReturnTo flowB.returnTo] else [])
         (valuesSet req0.url.query "return_to" flowB.returnTo),
       .calledProcessRegistration { reg0 with requestURL := regURL0 } "tok"
         claims0 prov0.config.id cont0] ∧
    valuesGet
      (Strategy.processLogin env0 req0 flowB "tok" claims0 prov0
        cont0).request.url.query "return_to" = flowB.returnTo :=
  C1_unknown_identity_pivots_to_registration env0 req0 flowB "tok" claims0
    prov0 cont0 reg0 regURL0 ident0 rfl rfl rfl rfl rfl

/-- C3: when the identity was found by the OIDC credentials identifier
but its decoded credential configuration holds no linked entry matching
the asserted (provider, subject) pair, `processLogin` fails with the
credentials-mismatch error — internal-server class, never the
user-facing not-found class. -/
theorem C3_credentials_mismatch_internal (env : Env) (r : Request)
    (a : LoginFlow) (token : Token) (claims : Claims)
    (provider : RuntimeProvider) (container : AuthCodeContainer)
    (i : Identity) (c : String) (o : CredentialsOIDC)
    (hfind : env.findByCredentialsIdentifier oidcStrategyID
      (OIDCUniqueID provider.config.id claims.subject) = .found i c)
    (hdec : env.decodeCredentialsOIDC c = .ok o)
    (hnomatch : ∀ cc ∈ o.providers,
      ¬(cc.subject = claims.subject ∧ cc.provider = provider.config.id)) :
    (Strategy.processLogin env r a token claims provider container).error =
      some (Strategy.handleError a provider.config.id
        (.internalServer
          "Unable to find matching OpenID Connect Credentials.")) ∧
    (Strategy.handleError a provider.config.id
      (.internalServer "Unable to find matching OpenID Connect Credentials.")
        ).isInternalServerClass = true ∧
    (Strategy.handleError a provider.config.id
      (.internalServer "Unable to find matching OpenID Connect Credentials.")
        ).isNotFoundClass = false ∧
    (Strategy.processLogin env r a token claims provider container).regFlow
        = none := by
  have hfq : o.providers.find? (fun cc =>
      cc.subject == claims.subject && cc.provider == provider.config.id)
      = none := by
    rw [List.find?_eq_none]
    intro cc hcc
    have hn := hnomatch cc hcc
    simp only [Bool.and_eq_true, beq_iff_eq]
    tauto
  simp [Strategy.processLogin, hfind, hdec, hfq, Strategy.handleError,
    Err.isInternalServerClass, Err.isNotFoundClass]

/-- C3 witness. -/
theorem C3_credentials_mismatch_internal_witness :
    (Strategy.processLogin envFoundNoMatch req0 flowB "tok" claims0 prov0
      cont0).error =
      some (Strategy.handleError flowB prov0.config.id
        (.internalServer
          "Unable to find matching OpenID Connect Credentials.")) ∧
    (Strategy.handleError flowB prov0.config.id
      (.internalServer "Unable to find matching OpenID Connect Credentials.")
        ).isInternalServerClass = true ∧
    (Strategy.handleError flowB prov0.config.id
      (.internalServer "Unable to find matching OpenID Connect Credentials.")
        ).isNotFoundClass = false ∧
    (Strategy.processLogin envFoundNoMatch req0 flowB "tok" claims0 prov0
      cont0).regFlow = none :=
  C3_credentials_mismatch_internal envFoundNoMatch req0 flowB "tok" claims0
    prov0 cont0 identLinked "blob" { providers := [] } rfl rfl (by simp)

/-- C4: when the identity was found and a linked provider entry matches
the asserted pair, `processLogin` creates a new inactive session marked
as having completed AAL1 via this strategy, invokes the post-login hook
with the matched identity and that session, and returns no flow and no
error when the hook succeeds. -/
theorem C4_match_creates_session_and_fires_hook (env : Env) (r : Request)
    (a : LoginFlow) (token : Token) (claims : Claims)
    (provider : RuntimeProvider) (container : AuthCodeContainer)
    (i : Identity) (c : String) (o : CredentialsOIDC)
    (cc : CredentialsOIDCProvider)
    (hfind : env.findByCredentialsIdentifier oidcStrategyID
      (OIDCUniqueID provider.config.id claims.subject) = .found i c)
    (hdec : env.decodeCredentialsOIDC c = .ok o)
    (hmem : cc ∈ o.providers)
    (hsub : cc.subject = claims.subject)
    (hpid : cc.provider = provider.config.id)
    (hhook : env.postLoginHook a i
      ((Session.newInactive).CompletedLoginFor oidcStrategyID 1) = .ok ()) :
    (Strategy.processLogin env r a token claims provider container).error
        = none ∧
    (Strategy.processLogin env r a token claims provider container).regFlow
        = none ∧
    (Strategy.processLogin env r a token claims provider container).effects =
      [.createdSession ((Session.newInactive).CompletedLoginFor
         oidcStrategyID 1),
       .calledPostLoginHook i ((Session.newInactive).CompletedLoginFor
         oidcStrategyID 1)] ∧
    ((Session.newInactive).CompletedLoginFor oidcStrategyID 1).active
        = false ∧
    ((Session.newInactive).CompletedLoginFor oidcStrategyID 1).amr =
      [{ method := oidcStrategyID, aal := 1 }] := by
  have hfq : (o.providers.find? (fun q =>
      q.subject == claims.subject && q.provider == provider.config.id)
      ).isSome := by
    rw [List.find?_isSome]
    exact ⟨cc, hmem, by simp [hsub, hpid]⟩
  cases hq : o.providers.find? (fun q =>
      q.subject == claims.subject && q.provider == provider.config.id) with
  | none =>
      rw [hq] at hfq
      cases hfq
  | some cc' =>
      have hhook' : env.postLoginHook a i
          { active := false, amr := [{ method := oidcStrategyID, aal := 1 }] }
          = .ok () := by
        simpa [Session.newInactive, Session.CompletedLoginFor] using hhook
      simp [Strategy.processLogin, hfind, hdec, hq, hhook',
        Session.newInactive, Session.CompletedLoginFor]

/-- C4 witness. -/
theorem C4_match_creates_session_and_fires_hook_witness :
    (Strategy.processLogin envFoundMatch req0 flowB "tok" claims0 prov0
      cont0).error = none ∧
    (Strategy.processLogin envFoundMatch req0 flowB "tok" claims0 prov0
      cont0).regFlow = none ∧
    (Strategy.processLogin envFoundMatch req0 flowB "tok" claims0 prov0
      cont0).effects =
      [.createdSession ((Session.newInactive).CompletedLoginFor
         oidcStrategyID 1),
       .calledPostLoginHook identLinked
         ((Session.newInactive).CompletedLoginFor oidcStrategyID 1)] ∧
    ((Session.newInactive).CompletedLoginFor oidcStrategyID 1).active
        = false ∧
    ((Session.newInactive).CompletedLoginFor oidcStrategyID 1).amr =
      [{ method := oidcStrategyID, aal := 1 }] :=
  C4_match_creates_session_and_fires_hook envFoundMatch req0 flowB "tok"
    claims0 prov0 cont0 identLinked "blob"
    { providers := [{ subject := "sub-123", provider := "google" }] }
    { subject := "sub-123", provider := "google" }
    rfl rfl (by simp) rfl rfl rfl

/-- C5: a browser-type login flow that passes provider resolution and is
not already authenticated pauses the continuity channel with the payload
(generated CSRF state, flow id, submitted traits) and a 30-minute
lifespan, sets the flow's active method to this strategy and persists
the flow update, and terminates with the completed-by-strategy sentinel
and no identity. -/
theorem C5_browser_pause_and_complete (env : Env) (r : Request)
    (f : LoginFlow) (p : UpdateLoginFlowWithOidcMethod)
    (prov : RuntimeProvider) (cl : OAuth2Client)
    (haal : f.requestedAAL ≤ 1)
    (hb : f.type = .browser)
    (hdec : env.decodeLinkForm = .ok p)
    (hpid : p.provider ≠ "")
    (hmeth : env.methodEnabledAndAllowed = .ok ())
    (hprov : env.conf.Provider env.mkProvider p.provider = .ok prov)
    (hoauth : prov.oauth2 = .ok cl)
    (hval : env.validateFlow = .ok ())
    (hauth : env.alreadyAuthenticated = false)
    (hpause : env.pause = .ok ())
    (hupd : env.updateLoginFlow = .ok ())
    (hup : ∃ up, env.decodeUpstream p.upstreamParameters = .ok up) :
    (Strategy.Login env r f).identity = none ∧
    (Strategy.Login env r f).error = some .completedByStrategy ∧
    Effect.pausedContinuity
        { state := env.generateState f.id, flowID := f.id,
          traits := p.traits } 30 ∈ (Strategy.Login env r f).effects ∧
    Effect.updatedLoginFlow { f with active := oidcStrategyID }
        ∈ (Strategy.Login env r f).effects ∧
    (Strategy.Login env r f).flow = { f with active := oidcStrategyID } := by
  obtain ⟨up, hup⟩ := hup
  have hc : CheckAAL f 1 = none := by
    simp [CheckAAL, Nat.not_lt.mpr haal]
  cases hj : r.isJSON
  · simp [Strategy.Login, Strategy.loginDecoded, hc, hb, hdec, hpid, hmeth,
      hprov, hoauth, hval, hauth, hpause, hupd, hup, hj]
  · simp [Strategy.Login, Strategy.loginDecoded, hc, hb, hdec, hpid, hmeth,
      hprov, hoauth, hval, hauth, hpause, hupd, hup, hj]

/-- C5 witness. -/
theorem C5_browser_pause_and_complete_witness :
    (Strategy.Login env0 req0 flowB).identity = none ∧
    (Strategy.Login env0 req0 flowB).error = some .completedByStrategy ∧
    Effect.pausedContinuity
        { state := env0.generateState flowB.id, flowID := flowB.id,
          traits := ({ provider := "google" } :
            UpdateLoginFlowWithOidcMethod).traits } 30
        ∈ (Strategy.Login env0 req0 flowB).effects ∧
    Effect.updatedLoginFlow { flowB with active := oidcStrategyID }
        ∈ (Strategy.Login env0 req0 flowB).effects ∧
    (Strategy.Login env0 req0 flowB).flow =
      { flowB with active := oidcStrategyID } :=
  C5_browser_pause_and_complete env0 req0 flowB { provider := "google" }
    prov0 oauth0 (by decide) rfl rfl (by decide) rfl rfl rfl rfl rfl rfl rfl
    ⟨[], rfl⟩

/-- C7: on a native (API-type) flow, a provider supporting direct
ID-token verification with no supplied id_token fails with
IDTokenMissing — with no claims-extraction call to the provider — and a
provider without that capability fails with ProviderNoAPISupport. -/
theorem C7_native_capability_gates (env : Env) (r : Request)
    (f : LoginFlow) (p : UpdateLoginFlowWithOidcMethod)
    (prov : RuntimeProvider) (cl : OAuth2Client)
    (haal : f.requestedAAL ≤ 1)
    (ha : f.type = .api)
    (hmfr : env.methodEnabledFromRequest = .ok ())
    (hdec : env.decodeAPI = .ok p)
    (hpid : p.provider ≠ "")
    (hmeth : env.methodEnabledAndAllowed = .ok ())
    (hprov : env.conf.Provider env.mkProvider p.provider = .ok prov)
    (hoauth : prov.oauth2 = .ok cl)
    (hval : env.validateFlow = .ok ())
    (hauth : env.alreadyAuthenticated = false) :
    (prov.isAPIFlow = true → p.idToken = "" →
      (Strategy.Login env r f).error =
        some (Strategy.handleError f p.provider .idTokenMissing) ∧
      (Strategy.Login env r f).identity = none ∧
      ∀ t, Effect.calledClaimsFromIDToken t
        ∉ (Strategy.Login env r f).effects) ∧
    (prov.isAPIFlow = false →
      (Strategy.Login env r f).error =
        some (Strategy.handleError f p.provider .providerNoAPISupport) ∧
      (Strategy.Login env r f).identity = none ∧
      ∀ t, Effect.calledClaimsFromIDToken t
        ∉ (Strategy.Login env r f).effects) := by
  have hc : CheckAAL f 1 = none := by
    simp [CheckAAL, Nat.not_lt.mpr haal]
  constructor
  · intro hapi htok
    simp [Strategy.Login, Strategy.loginDecoded, hc, ha, hmfr, hdec, hpid,
      hmeth, hprov, hoauth, hval, hauth, hapi, htok]
  · intro hnapi
    simp [Strategy.Login, Strategy.loginDecoded, hc, ha, hmfr, hdec, hpid,
      hmeth, hprov, hoauth, hval, hauth, hnapi]

/-- C7 witness. -/
theorem C7_native_capability_gates_witness :
    (prov0.isAPIFlow = true →
      ({ provider := "google" } : UpdateLoginFlowWithOidcMethod).idToken
          = "" →
      (Strategy.Login envNoTok req0 flowAPI).error =
        some (Strategy.handleError flowAPI "google" .idTokenMissing) ∧
      (Strategy.Login envNoTok req0 flowAPI).identity = none ∧
      ∀ t, Effect.calledClaimsFromIDToken t
        ∉ (Strategy.Login envNoTok req0 flowAPI).effects) ∧
    (prov0.isAPIFlow = false →
      (Strategy.Login envNoTok req0 flowAPI).error =
        some (Strategy.handleError flowAPI "google" .providerNoAPISupport) ∧
      (Strategy.Login envNoTok req0 flowAPI).identity = none ∧
      ∀ t, Effect.calledClaimsFromIDToken t
        ∉ (Strategy.Login envNoTok req0 flowAPI).effects) :=
  C7_native_capability_gates envNoTok req0 flowAPI { provider := "google" }
    prov0 oauth0 (by decide) rfl rfl rfl (by decide) rfl rfl rfl rfl rfl

/-- C8: a decoded payload with an empty provider id makes `Login` return
the strategy-not-responsible routing signal, with the flow unchanged and
no collaborator effect — in particular no provider resolution. -/
theorem C8_empty_provider_not_responsible (env : Env) (r : Request)
    (f : LoginFlow) (p : UpdateLoginFlowWithOidcMethod)
    (hdec : (f.type = .browser ∧ env.decodeLinkForm = .ok p) ∨
      (f.type ≠ .browser ∧ env.methodEnabledFromRequest = .ok () ∧
        env.decodeAPI = .ok p))
    (hpid : p.provider = "") :
    Strategy.Login env r f =
      { identity := none, error := some .strategyNotResponsible, flow := f,
        effects := [] } := by
  cases hc : CheckAAL f 1 with
  | some e =>
      have he : e = .strategyNotResponsible := by
        unfold CheckAAL at hc
        by_cases h1 : 1 < f.requestedAAL
        · rw [if_pos h1] at hc
          exact (Option.some.inj hc).symm
        · rw [if_neg h1] at hc
          cases hc
      subst he
      simp [Strategy.Login, hc]
  | none =>
      rcases hdec with ⟨hb, hd⟩ | ⟨hb, hm, hd⟩
      · simp [Strategy.Login, Strategy.loginDecoded, hc, hb, hd, hpid]
      · simp [Strategy.Login, Strategy.loginDecoded, hc, hb, hm, hd, hpid]

/-- C8 witness. -/
theorem C8_empty_provider_not_responsible_witness :
    Strategy.Login envEmptyPid req0 flowB =
      { identity := none, error := some .strategyNotResponsible,
        flow := flowB, effects := [] } :=
  C8_empty_provider_not_responsible envEmptyPid req0 flowB { provider := "" }
    (Or.inl ⟨rfl, rfl⟩) rfl

/-- C2 counterexample: a native (API-type) login flow whose claims were
successfully extracted from the supplied ID token but with no identity
linked to (google, sub-123).  `Login` returns a user-not-found error —
it does not pivot into registration and does not return "no identity and
no error" as the claim states. -/
theorem C2_native_no_pivot_counterexample :
    Strategy.Login env0 req0 flowAPI =
      { identity := none,
        error := some (.annotated "google" "flow-1" .userNotFound),
        flow := flowAPI,
        effects := [.resolvedProvider "google",
                    .calledClaimsFromIDToken "tok"] } ∧
    (Strategy.Login env0 req0 flowAPI).error ≠ none := by
  exact ⟨by decide, by decide⟩

/-- C2 amended: on a native (API-type) login flow in which claims were
successfully extracted from the supplied ID token but no identity has
the external identity (provider, subject) linked, the attempt IS a
failure: `Login` returns no identity and a user-not-found error, and
does not pivot into registration (no registration flow is created, the
registration counterpart is not invoked). -/
theorem C2_amended_native_unknown_user_fails (env : Env) (r : Request)
    (f : LoginFlow) (p : UpdateLoginFlowWithOidcMethod)
    (prov : RuntimeProvider) (cl : OAuth2Client) (claims : Claims)
    (haal : f.requestedAAL ≤ 1)
    (ha : f.type = .api)
    (hmfr : env.methodEnabledFromRequest = .ok ())
    (hdec : env.decodeAPI = .ok p)
    (hpid : p.provider ≠ "")
    (hmeth : env.methodEnabledAndAllowed = .ok ())
    (hprov : env.conf.Provider env.mkProvider p.provider = .ok prov)
    (hoauth : prov.oauth2 = .ok cl)
    (hval : env.validateFlow = .ok ())
    (hauth : env.alreadyAuthenticated = false)
    (hapi : prov.isAPIFlow = true)
    (htok : 0 < p.idToken.length)
    (hclaims : prov.claimsFromIDToken p.idToken = .ok claims)
    (hfind : env.findByCredentialsIdentifier oidcStrategyID
      (OIDCUniqueID prov.config.id claims.subject) = .noRows) :
    (Strategy.Login env r f).identity = none ∧
    (Strategy.Login env r f).error =
      some (Strategy.handleError f p.provider .userNotFound) ∧
    (∀ t o q, Effect.calledNewRegistrationFlow t o q
      ∉ (Strategy.Login env r f).effects) ∧
    (∀ rf tok c pid cont, Effect.calledProcessRegistration rf tok c pid cont
      ∉ (Strategy.Login env r f).effects) := by
  have hc : CheckAAL f 1 = none := by
    simp [CheckAAL, Nat.not_lt.mpr haal]
  simp [Strategy.Login, Strategy.loginDecoded, hc, ha, hmfr, hdec, hpid,
    hmeth, hprov, hoauth, hval, hauth, hapi, htok, hclaims, hfind]

/-- C2 amended witness. -/
theorem C2_amended_native_unknown_user_fails_witness :
    (Strategy.Login env0 req0 flowAPI).identity = none ∧
    (Strategy.Login env0 req0 flowAPI).error =
      some (Strategy.handleError flowAPI "google" .userNotFound) ∧
    (∀ t o q, Effect.calledNewRegistrationFlow t o q
      ∉ (Strategy.Login env0 req0 flowAPI).effects) ∧
    (∀ rf tok c pid cont, Effect.calledProcessRegistration rf tok c pid cont
      ∉ (Strategy.Login env0 req0 flowAPI).effects) :=
  C2_amended_native_unknown_user_fails env0 req0 flowAPI
    { provider := "google", idToken := "tok" } prov0 oauth0
    { subject := "sub-123" }
    (by decide) rfl rfl rfl (by decide) rfl rfl rfl rfl rfl rfl
    (by decide) rfl rfl

end Kratos
